import Mathlib

/-!
Verification development for the Memecoin-AI-Agent repository.

The development shallowly embeds the control-loop code of the repository:

* `JupiterPriceV2Service.calculateConfidenceLevel` (src/src/index.ts, lines
  1764-1772),
* the autonomous market monitor `startMarketMonitoring` and the trade
  dispatch `executeTrade` (src/src/index.ts, lines 704-720 and 806-813),
* the analysis pipeline `analyzeMarket` (src/src/index.ts, lines 745-804),
* the retrying tweet poster `postTweetWithRetry` (src/src/index.ts,
  lines 532-550),
* `JupiterPriceV2Service.getMarketData` and its Redis cache
  (src/src/index.ts, lines 1822-1845),
* the auto-mode scheduler of `ChatService`
  (src/src/services/chat/ChatService.js, lines 44-96 and 292-302).

JavaScript numbers are modelled as rationals (`ℚ`), fallible calls as
`Except`, and `x || 0` / optional-chaining defaults as `Option.getD`.
-/

namespace MemecoinAgent

/-- Coarse confidence bucket returned by `calculateConfidenceLevel`
(the string literals low / medium / high in the source). -/
inductive ConfidenceLevel where
  | low
  | medium
  | high
deriving DecidableEq, Repr

/-- Embedding of `JupiterPriceV2Service.calculateConfidenceLevel`
(src/src/index.ts lines 1764-1772).  The source reads
`volume24h = Number(tradeData.volume_24h_usd)` and
`liquidity = dexData.pairs[0]?.liquidity?.usd || 0`; this function takes the
two numbers after that extraction.  The body is the literal threshold chain:
`if (volume24h > 100000 && liquidity > 50000) return high;`
`if (volume24h > 10000 && liquidity > 10000) return medium; return low;`. -/
def calculateConfidenceLevel (volume24h liquidity : ℚ) : ConfidenceLevel :=
  if volume24h > 100000 ∧ liquidity > 50000 then .high
  else if volume24h > 10000 ∧ liquidity > 10000 then .medium
  else .low

/-- Embedding of the liquidity extraction
`dexData.pairs[0]?.liquidity?.usd || 0`: a missing first pair or missing
liquidity field is coerced to 0 before the thresholds are compared. -/
def confidenceLevelOfPair (volume24h : ℚ) (liquidityUsd : Option ℚ) :
    ConfidenceLevel :=
  calculateConfidenceLevel volume24h (liquidityUsd.getD 0)

/-- Subset of `marketData.volatility` used by `analyzeMarket`
(src/src/index.ts lines 760-762). -/
structure VolatilityInfo where
  currentVolatility : ℚ
  averageVolatility : ℚ
  adjustmentFactor : ℚ
deriving DecidableEq, Repr

/-- Market data object consumed by `analyzeMarket`
(src/src/index.ts lines 747-763).  Every numeric field is optional because
the source defends each access with `|| 0` / `?.`. -/
structure MarketDataFull where
  price : Option ℚ
  volume24h : Option ℚ
  marketCap : Option ℚ
  volatility : Option VolatilityInfo
deriving DecidableEq, Repr

/-- Embedding of the `MarketMetrics` record built inside `analyzeMarket`
(src/src/index.ts lines 754-763).  The `onChainData` field of the source is
an opaque object and is omitted. -/
structure MarketMetrics where
  price : ℚ
  volume24h : ℚ
  marketCap : ℚ
  confidence : ℚ
  volatility : ℚ
  momentum : ℚ
  strength : ℚ
deriving DecidableEq, Repr

/-- Embedding of the `MarketAnalysis` record returned by `analyzeMarket`
(src/src/index.ts lines 765-777).  `action` and `riskLevel` are the string
values of the source (BUY / SELL / HOLD and LOW / MEDIUM / HIGH). -/
structure MarketAnalysis where
  summary : String
  sentiment : String
  keyPoints : List String
  recommendation : Option String
  shouldTrade : Bool
  confidence : ℚ
  action : String
  reasons : List String
  riskLevel : String
  metrics : MarketMetrics
deriving DecidableEq, Repr

/-- Raw result of `aiService.analyzeMarket` as consumed at
src/src/index.ts lines 765-776: every field may be absent, and each access
is defended with `||` defaults in the source. -/
structure AIAnalysisRaw where
  summary : Option String
  sentiment : Option String
  keyPoints : Option (List String)
  recommendation : Option String
  shouldTrade : Option Bool
  confidence : Option ℚ
  action : Option String
  reasons : Option (List String)
  riskLevel : Option String
deriving DecidableEq, Repr

/-- Fallback analysis returned by the `catch` branch of `analyzeMarket`
(src/src/index.ts lines 781-802), copied field by field from the source. -/
def fallbackAnalysis : MarketAnalysis :=
  { summary := "Error analyzing market"
    sentiment := "NEUTRAL"
    keyPoints := []
    recommendation := none
    shouldTrade := false
    confidence := 0
    action := "HOLD"
    reasons := ["Error analyzing market"]
    riskLevel := "MEDIUM"
    metrics :=
      { price := 0
        volume24h := 0
        marketCap := 0
        confidence := 0
        volatility := 0
        momentum := 0
        strength := 0 } }

/-- Embedding of `MemeAgentInfluencer.analyzeMarket`
(src/src/index.ts lines 745-804).  The first argument is the outcome of
`tradingService.getMarketData` (an exception, or a possibly-falsy value:
the source throws when `!marketData`); the second is the outcome of
`aiService.analyzeMarket(marketData)`.  Both throws land in the same
`catch`, which returns `fallbackAnalysis`; the function is total, so no
exception ever propagates out of it. -/
def analyzeMarket (fetch : Except String (Option MarketDataFull))
    (ai : Except String AIAnalysisRaw) : MarketAnalysis :=
  match fetch with
  | .error _ => fallbackAnalysis
  | .ok none => fallbackAnalysis
  | .ok (some md) =>
    match ai with
    | .error _ => fallbackAnalysis
    | .ok raw =>
      { summary := raw.summary.getD ""
        sentiment := raw.sentiment.getD "NEUTRAL"
        keyPoints := raw.keyPoints.getD []
        recommendation := raw.recommendation
        shouldTrade := raw.shouldTrade.getD false
        confidence := raw.confidence.getD 0
        action := raw.action.getD "HOLD"
        reasons := raw.reasons.getD []
        riskLevel :=
          if raw.riskLevel = some "LOW" ∨ raw.riskLevel = some "HIGH" then
            raw.riskLevel.getD "MEDIUM"
          else "MEDIUM"
        metrics :=
          { price := md.price.getD 0
            volume24h := md.volume24h.getD 0
            marketCap := md.marketCap.getD 0
            confidence := raw.confidence.getD 0
            volatility := (md.volatility.map (·.currentVolatility)).getD 0
            momentum := (md.volatility.map (·.adjustmentFactor)).getD 0
            strength := (md.volatility.map (·.averageVolatility)).getD 0 } }

/-- Trading configuration `CONFIG.SOLANA.TRADING` as read by the monitor
and by `executeTrade` / `calculateTradeAmount`
(src/src/index.ts lines 708-710, 806-813, 819-821). -/
structure TradingConfig where
  MIN_CONFIDENCE : ℚ
  BASE_AMOUNT : ℚ
  SLIPPAGE : ℚ
deriving DecidableEq, Repr

/-- Observable outcome of one `monitorMarket` pass: either the trade sink
`tradingService.executeTrade` is contacted with the given arguments, or
nothing happens (hold). -/
inductive MonitorOutcome where
  | trade (fromAsset toAsset : String) (amount slippage : ℚ)
  | hold
deriving DecidableEq, Repr

/-- Embedding of one pass of the `monitorMarket` closure inside
`startMarketMonitoring` together with `executeTrade` and
`calculateTradeAmount` (src/src/index.ts lines 704-720, 806-813, 819-821).
The source guard is
`if (analysis.shouldTrade && analysis.confidence > tradingConfig.MIN_CONFIDENCE)`;
when it passes, `executeTrade` swaps SOL for the token when
`analysis.action === BUY` and the token for SOL otherwise, with amount
`BASE_AMOUNT * analysis.confidence`.  When the guard fails no sink is
contacted. -/
def monitorMarket (cfg : TradingConfig) (tokenAddress : String)
    (analysis : MarketAnalysis) : MonitorOutcome :=
  if analysis.shouldTrade = true ∧ analysis.confidence > cfg.MIN_CONFIDENCE then
    .trade (if analysis.action = "BUY" then "SOL" else tokenAddress)
      (if analysis.action = "BUY" then tokenAddress else "SOL")
      (cfg.BASE_AMOUNT * analysis.confidence)
      cfg.SLIPPAGE
  else .hold

/-- Trace of one run of `postTweetWithRetry`: how many attempts were
performed, the delays (in milliseconds) inserted after each failed attempt,
and whether a tweet eventually went through. -/
structure RetryTrace where
  attempts : Nat
  delays : List Nat
  success : Bool
deriving DecidableEq, Repr

/-- Body of the retry loop of `postTweetWithRetry`
(src/src/index.ts lines 536-546), starting at loop index `i` with
`remaining` iterations left.  `succ j` tells whether the tweet attempt at
loop index `j` succeeds.  On success the loop returns; on failure the
source logs the attempt and sleeps `baseWaitTime * (i + 1)` milliseconds
before the next iteration. -/
def retryGo (succ : Nat → Bool) (baseWaitTime : Nat) :
    Nat → Nat → RetryTrace
  | _, 0 => { attempts := 0, delays := [], success := false }
  | i, remaining + 1 =>
    if succ i then { attempts := 1, delays := [], success := true }
    else
      let rest := retryGo succ baseWaitTime (i + 1) remaining
      { attempts := rest.attempts + 1
        delays := baseWaitTime * (i + 1) :: rest.delays
        success := rest.success }

/-- Embedding of `MemeAgentInfluencer.postTweetWithRetry`
(src/src/index.ts lines 532-550): a `for (let i = 0; i < retries; i++)`
loop with `baseWaitTime = 5000` and default `retries = 3`. -/
def postTweetWithRetryTrace (succ : Nat → Bool) (baseWaitTime retries : Nat) :
    RetryTrace :=
  retryGo succ baseWaitTime 0 retries

/-- Observable result of `postTweetWithRetry`: the source returns `void` on
success and `throw lastError` (src/src/index.ts line 549) after the loop
exhausts all attempts without success. -/
def postTweetWithRetryExc (succ : Nat → Bool) (baseWaitTime retries : Nat) :
    Except String Unit :=
  if (postTweetWithRetryTrace succ baseWaitTime retries).success then .ok ()
  else .error "lastError"

/-- Embedding of the `tweet` chat command of `ChatService`
(src/src/services/chat/ChatService.js lines 176-197): the call to
`postTweetWithRetry` sits in a `try` block whose `catch` prints
`Error posting tweet`; nothing escapes the command. -/
def tweetCommand (succ : Nat → Bool) (baseWaitTime retries : Nat) : String :=
  match postTweetWithRetryExc succ baseWaitTime retries with
  | .ok _ => "Tweet posted successfully!"
  | .error _ => "Error posting tweet"

/-- Record returned by `JupiterPriceV2Service.getMarketData`
(src/src/index.ts lines 1832-1837). -/
structure MarketData where
  price : ℚ
  volume24h : ℚ
  priceChange24h : ℚ
  marketCap : ℚ
deriving DecidableEq, Repr

/-- Fields of `tokenProvider.getProcessedTokenData()` that `getMarketData`
reads (src/src/index.ts lines 1829-1836).  `pairsMarketCap` models
`dexData.pairs[0]?.marketCap`, absent when there is no first pair. -/
structure TokenData where
  price : ℚ
  volume_24h_usd : ℚ
  price_change_24h_percent : ℚ
  pairsMarketCap : Option ℚ
deriving DecidableEq, Repr

/-- Merge step of `getMarketData` (src/src/index.ts lines 1832-1837):
numeric fields are copied and a missing market cap is coerced to 0. -/
def mergeMarketData (td : TokenData) : MarketData :=
  { price := td.price
    volume24h := td.volume_24h_usd
    priceChange24h := td.price_change_24h_percent
    marketCap := td.pairsMarketCap.getD 0 }

/-- Entry stored under the Redis key `marketData:<symbol>`: the cached
market data together with its expiry time (seconds since an arbitrary
origin).  The JSON stringify/parse round trip of the source is modelled as
the identity on the payload. -/
structure CacheEntry where
  value : MarketData
  expiresAt : Nat
deriving DecidableEq, Repr

/-- TTL-respecting Redis read: an entry past its expiry no longer exists,
so `cache.get` yields nothing for it.  This models the backing store used
through `this.cache.get` in `getMarketData` (src/src/index.ts line 1825). -/
def redisGet (entry : Option CacheEntry) (now : Nat) : Option MarketData :=
  match entry with
  | none => none
  | some e => if now < e.expiresAt then some e.value else none

/-- Constant `JupiterPriceV2Service.CACHE_TTL = 300`
(src/src/index.ts line 1689). -/
def CACHE_TTL : Nat := 300

/-- Full outcome of one `getMarketData` call: the returned value or the
propagated exception, the cache entry for the key afterwards, and whether
the upstream fetch (`getProcessedTokenData`) was contacted. -/
structure GetMarketDataRun where
  result : Except String MarketData
  entryAfter : Option CacheEntry
  fetched : Bool
deriving Repr

/-- Embedding of `JupiterPriceV2Service.getMarketData`
(src/src/index.ts lines 1822-1845).  On a cache hit the cached value is
parsed and returned without fetching.  On a miss the token data is fetched;
on success the merged record is stored with `expires = CACHE_TTL` and
returned; on failure the `catch` logs and rethrows the error — there is no
stale-value fallback in the source. -/
def getMarketData (entry : Option CacheEntry) (now : Nat)
    (fetch : Except String TokenData) : GetMarketDataRun :=
  match redisGet entry now with
  | some v => { result := .ok v, entryAfter := entry, fetched := false }
  | none =>
    match fetch with
    | .ok td =>
      let md := mergeMarketData td
      { result := .ok md
        entryAfter := some { value := md, expiresAt := now + CACHE_TTL }
        fetched := true }
    | .error e => { result := .error e, entryAfter := entry, fetched := true }

/-- State of the `ChatService` auto-mode machinery
(src/src/services/chat/ChatService.js).  `intervalActive` models
`autoModeInterval !== null`; `inFlight` counts cycle bodies that have been
started by a timer fire and have not yet finished (the callback passed to
`setInterval` is `async`, so a fire while a previous body is awaiting
leaves both bodies pending); `history` models the messages recorded through
`recordMessage` by completed cycles. -/
structure AutoState where
  intervalActive : Bool
  inFlight : Nat
  history : List String
deriving DecidableEq, Repr

/-- Events of the auto-mode machinery.  `timerFire` is the interval timer
firing; `cycleFinish action ok` is a started cycle body running to
completion, where `ok` tells whether its awaited calls succeeded (the body
wraps everything in `try`/`catch`, so a failed body only logs);
`modeChanged m` is the `modeChanged` listener of `setupEventListeners`
(ChatService.js lines 44-54). -/
inductive AutoEvent where
  | timerFire
  | cycleFinish (action : String) (ok : Bool)
  | modeChanged (mode : String)
deriving DecidableEq, Repr

/-- Step function of the auto-mode machinery, read off
src/src/services/chat/ChatService.js lines 44-96.  A timer fire invokes the
`setInterval` callback unconditionally — `startAutoMode` checks no
in-flight flag, so a new cycle body starts even while an earlier one is
pending.  A finishing cycle whose body succeeded records its two messages
via `recordMessage` with no guard on the current mode — the source has no
epoch counter.  The `modeChanged` listener starts the interval on `auto`
and clears it on any other mode, touching nothing else. -/
def autoStep (e : AutoEvent) (s : AutoState) : AutoState :=
  match e with
  | .timerFire =>
    if s.intervalActive then { s with inFlight := s.inFlight + 1 } else s
  | .cycleFinish action ok =>
    if s.inFlight = 0 then s
    else if ok then
      { s with
        inFlight := s.inFlight - 1
        history := s.history ++
          ["Executed action: " ++ action, "Result: executed"] }
    else { s with inFlight := s.inFlight - 1 }
  | .modeChanged m =>
    if m = "auto" then { s with intervalActive := true }
    else { s with intervalActive := false }

/-- Run of the auto-mode machinery over a list of events. -/
def autoRun (es : List AutoEvent) (s : AutoState) : AutoState :=
  es.foldl (fun s e => autoStep e s) s

/-- Initial state: no interval, no cycle in flight, empty history. -/
def autoInit : AutoState :=
  { intervalActive := false, inFlight := 0, history := [] }

/-- Modelled from the spec: the non-overlap property §4.6 and §8 claim for
the Scheduler — at no reachable point are two cycles in flight at once.
The source has no such guard; this predicate states the claimed property so
that it can be compared with `autoStep`. -/
def specNonOverlap : Prop :=
  ∀ es : List AutoEvent, (autoRun es autoInit).inFlight ≤ 1

/-- The retry loop performs at most as many attempts as it has iterations
left. -/
lemma retryGo_attempts_le (succ : Nat → Bool) (base : Nat) :
    ∀ r i, (retryGo succ base i r).attempts ≤ r := by
  intro r
  induction r with
  | zero => intro i; simp [retryGo]
  | succ n ih =>
    intro i
    by_cases hs : succ i = true
    · simp [retryGo, hs]
    · simpa [retryGo, hs] using ih (i + 1)

/-- Closed form of the delays recorded by the retry loop: the k-th delay of
the run starting at loop index i is `base * (i + 1 + k)`. -/
lemma retryGo_delays_getD (succ : Nat → Bool) (base : Nat) :
    ∀ r i k, k < (retryGo succ base i r).delays.length →
      (retryGo succ base i r).delays.getD k 0 = base * (i + 1 + k) := by
  intro r
  induction r with
  | zero => intro i k h; simp [retryGo] at h
  | succ n ih =>
    intro i k h
    by_cases hs : succ i = true
    · simp [retryGo, hs] at h
    · simp only [retryGo, hs, if_false, Bool.false_eq_true] at h ⊢
      cases k with
      | zero => simp
      | succ k =>
        simp only [List.length_cons, Nat.succ_lt_succ_iff] at h
        have := ih (i + 1) k h
        simp only [List.getD_cons_succ, this]
        ring

/-- When every attempt fails, the retry loop uses every iteration and never
succeeds. -/
lemma retryGo_allfail (succ : Nat → Bool) (base : Nat)
    (hf : ∀ j, succ j = false) :
    ∀ r i, (retryGo succ base i r).attempts = r ∧
      (retryGo succ base i r).success = false := by
  intro r
  induction r with
  | zero => intro i; simp [retryGo]
  | succ n ih =>
    intro i
    have hs : ¬ succ i = true := by simp [hf i]
    obtain ⟨ha, hsu⟩ := ih (i + 1)
    simp [retryGo, hs, ha, hsu]

/-- C1: in the autonomous monitoring loop a trade is executed only if the
confidence of the analysis is at least `MIN_CONFIDENCE`; whenever the
confidence is below `MIN_CONFIDENCE` the pass holds and no trade sink is
contacted, regardless of any other field of the analysis (in particular of
the momentum sign, which the guard never reads). -/
theorem c1_trade_gate (cfg : TradingConfig) (tok : String)
    (a : MarketAnalysis) :
    (a.confidence < cfg.MIN_CONFIDENCE → monitorMarket cfg tok a = .hold) ∧
    (∀ f t amt sl, monitorMarket cfg tok a = .trade f t amt sl →
      cfg.MIN_CONFIDENCE ≤ a.confidence) := by
  constructor
  · intro hlt
    unfold monitorMarket
    rw [if_neg]
    rintro ⟨-, hgt⟩
    exact absurd hgt (not_lt.mpr hlt.le)
  · intro f t amt sl h
    by_cases hg : a.shouldTrade = true ∧ a.confidence > cfg.MIN_CONFIDENCE
    · exact hg.2.le
    · simp [monitorMarket, hg] at h

/-- Witness for C1: an analysis with confidence 0.4 against
`MIN_CONFIDENCE = 0.7` holds, even with `shouldTrade` set and a BUY
action. -/
theorem c1_trade_gate_witness :
    monitorMarket { MIN_CONFIDENCE := 7/10, BASE_AMOUNT := 10, SLIPPAGE := 1 }
      "TOKEN"
      { summary := "", sentiment := "BULLISH", keyPoints := [],
        recommendation := none, shouldTrade := true, confidence := 2/5,
        action := "BUY", reasons := [], riskLevel := "LOW",
        metrics := { price := 1, volume24h := 1, marketCap := 1,
                     confidence := 2/5, volatility := 1, momentum := 1,
                     strength := 1 } } = .hold :=
  (c1_trade_gate _ _ _).1 (by norm_num)

/-- C2: for non-negative volume and liquidity the computed confidence level
is high exactly when volume exceeds 100000 and liquidity exceeds 50000,
otherwise medium exactly when volume exceeds 10000 and liquidity exceeds
10000, and low otherwise. -/
theorem c2_confidence_thresholds (v l : ℚ) (hv : 0 ≤ v) (hl : 0 ≤ l) :
    (calculateConfidenceLevel v l = .high ↔ v > 100000 ∧ l > 50000) ∧
    (calculateConfidenceLevel v l = .medium ↔
      ¬(v > 100000 ∧ l > 50000) ∧ (v > 10000 ∧ l > 10000)) ∧
    (calculateConfidenceLevel v l = .low ↔
      ¬(v > 100000 ∧ l > 50000) ∧ ¬(v > 10000 ∧ l > 10000)) := by
  unfold calculateConfidenceLevel
  split_ifs with h1 h2 <;> simp_all

/-- Witness for C2: volume 150000 with liquidity 60000 yields the high
confidence level. -/
theorem c2_confidence_thresholds_witness :
    calculateConfidenceLevel 150000 60000 = .high :=
  (c2_confidence_thresholds 150000 60000 (by norm_num) (by norm_num)).1.mpr
    ⟨by norm_num, by norm_num⟩

/-- C9: a negative volume or liquidity input classifies exactly as the
input clamped to 0 does, and the resulting confidence level is low — the
positive thresholds make the comparisons fail either way, so negative
inputs behave as zero inputs. -/
theorem c9_negative_inputs_low (v l : ℚ) (h : v < 0 ∨ l < 0) :
    calculateConfidenceLevel v l =
      calculateConfidenceLevel (max v 0) (max l 0) ∧
    calculateConfidenceLevel v l = .low := by
  rcases h with hv | hl
  · have nA : ¬(v > 100000 ∧ l > 50000) := by rintro ⟨h1, -⟩; linarith
    have nB : ¬(v > 10000 ∧ l > 10000) := by rintro ⟨h1, -⟩; linarith
    have nA2 : ¬(max v 0 > 100000 ∧ max l 0 > 50000) := by
      rintro ⟨h1, -⟩
      rw [max_eq_right hv.le] at h1
      norm_num at h1
    have nB2 : ¬(max v 0 > 10000 ∧ max l 0 > 10000) := by
      rintro ⟨h1, -⟩
      rw [max_eq_right hv.le] at h1
      norm_num at h1
    have h1 : calculateConfidenceLevel v l = .low := by
      unfold calculateConfidenceLevel; rw [if_neg nA, if_neg nB]
    have h2 : calculateConfidenceLevel (max v 0) (max l 0) = .low := by
      unfold calculateConfidenceLevel; rw [if_neg nA2, if_neg nB2]
    exact ⟨h1.trans h2.symm, h1⟩
  · have nA : ¬(v > 100000 ∧ l > 50000) := by rintro ⟨-, h2⟩; linarith
    have nB : ¬(v > 10000 ∧ l > 10000) := by rintro ⟨-, h2⟩; linarith
    have nA2 : ¬(max v 0 > 100000 ∧ max l 0 > 50000) := by
      rintro ⟨-, h2⟩
      rw [max_eq_right hl.le] at h2
      norm_num at h2
    have nB2 : ¬(max v 0 > 10000 ∧ max l 0 > 10000) := by
      rintro ⟨-, h2⟩
      rw [max_eq_right hl.le] at h2
      norm_num at h2
    have h1 : calculateConfidenceLevel v l = .low := by
      unfold calculateConfidenceLevel; rw [if_neg nA, if_neg nB]
    have h2 : calculateConfidenceLevel (max v 0) (max l 0) = .low := by
      unfold calculateConfidenceLevel; rw [if_neg nA2, if_neg nB2]
    exact ⟨h1.trans h2.symm, h1⟩

/-- Witness for C9: volume -5 with healthy liquidity 60000 classifies low,
exactly as volume 0 would. -/
theorem c9_negative_inputs_low_witness :
    calculateConfidenceLevel (-5) 60000 = .low :=
  (c9_negative_inputs_low (-5) 60000 (Or.inl (by norm_num))).2

/-- C3: every run of the retrying poster performs at most `retries`
attempts (never one more); the delay inserted between attempt k+1 and
attempt k+2 equals `baseWaitTime * (k + 1)` — linear backoff — so the
sequence of inter-attempt delays is non-decreasing. -/
theorem c3_retry_bound_and_backoff (succ : Nat → Bool)
    (baseWaitTime retries : Nat) :
    (postTweetWithRetryTrace succ baseWaitTime retries).attempts ≤ retries ∧
    (∀ k, k < (postTweetWithRetryTrace succ baseWaitTime retries).delays.length →
      (postTweetWithRetryTrace succ baseWaitTime retries).delays.getD k 0 =
        baseWaitTime * (k + 1)) ∧
    (∀ k, k + 1 <
        (postTweetWithRetryTrace succ baseWaitTime retries).delays.length →
      (postTweetWithRetryTrace succ baseWaitTime retries).delays.getD k 0 ≤
        (postTweetWithRetryTrace succ baseWaitTime retries).delays.getD
          (k + 1) 0) := by
  refine ⟨retryGo_attempts_le succ baseWaitTime retries 0, ?_, ?_⟩
  · intro k hk
    have := retryGo_delays_getD succ baseWaitTime retries 0 k hk
    simpa [postTweetWithRetryTrace, Nat.add_comm] using this
  · intro k hk
    have h1 := retryGo_delays_getD succ baseWaitTime retries 0 k
      (Nat.lt_of_succ_lt hk)
    have h2 := retryGo_delays_getD succ baseWaitTime retries 0 (k + 1) hk
    simp only [postTweetWithRetryTrace] at h1 h2 ⊢
    rw [h1, h2]
    exact Nat.mul_le_mul_left _ (by omega)

/-- Witness for C3: with every attempt failing, base delay 5000 ms and the
default limit of 3, exactly the delays 5000 and 10000 separate the three
attempts, and no fourth attempt happens. -/
theorem c3_retry_bound_and_backoff_witness :
    (postTweetWithRetryTrace (fun _ => false) 5000 3).attempts ≤ 3 ∧
    (postTweetWithRetryTrace (fun _ => false) 5000 3).delays.getD 0 0 =
      5000 * 1 ∧
    (postTweetWithRetryTrace (fun _ => false) 5000 3).delays.getD 0 0 ≤
      (postTweetWithRetryTrace (fun _ => false) 5000 3).delays.getD 1 0 :=
  ⟨(c3_retry_bound_and_backoff (fun _ => false) 5000 3).1,
   (c3_retry_bound_and_backoff (fun _ => false) 5000 3).2.1 0 (by decide),
   (c3_retry_bound_and_backoff (fun _ => false) 5000 3).2.2 0 (by decide)⟩

/-- C4 counterexample: when all three attempts fail, `postTweetWithRetry`
does not return a FAILED result — it rethrows the last error
(src/src/index.ts line 549), so its outcome is an exception and not a
normal return. -/
theorem c4_counterexample :
    postTweetWithRetryExc (fun _ => false) 5000 3 = .error "lastError" ∧
    ¬ ∃ u, postTweetWithRetryExc (fun _ => false) 5000 3 = .ok u := by
  refine ⟨rfl, ?_⟩
  rintro ⟨u, hu⟩
  rw [show postTweetWithRetryExc (fun _ => false) 5000 3 =
    .error "lastError" from rfl] at hu
  exact Except.noConfusion hu

/-- C4 amended: when every attempt fails the poster performs exactly
`retries` attempts and then throws the last error instead of returning a
FAILED result; the `tweet` command of `ChatService` catches the exception
and degrades to a log line, so the failure never escalates beyond that
cycle and the loop proceeds. -/
theorem c4_retry_exhaustion_contained (succ : Nat → Bool)
    (base retries : Nat) (hf : ∀ j, succ j = false) :
    (postTweetWithRetryTrace succ base retries).attempts = retries ∧
    postTweetWithRetryExc succ base retries = .error "lastError" ∧
    tweetCommand succ base retries = "Error posting tweet" := by
  obtain ⟨ha, hs⟩ := retryGo_allfail succ base hf retries 0
  have he : postTweetWithRetryExc succ base retries = .error "lastError" := by
    unfold postTweetWithRetryExc
    rw [show postTweetWithRetryTrace succ base retries =
      retryGo succ base 0 retries from rfl, hs]
    simp
  refine ⟨ha, he, ?_⟩
  unfold tweetCommand
  rw [he]

/-- Witness for C4 amended: three consecutive failures with the default
limit of 3 give exactly 3 attempts, a thrown error, and the caught
command output. -/
theorem c4_retry_exhaustion_contained_witness :
    (postTweetWithRetryTrace (fun _ => false) 5000 3).attempts = 3 ∧
    postTweetWithRetryExc (fun _ => false) 5000 3 = .error "lastError" ∧
    tweetCommand (fun _ => false) 5000 3 = "Error posting tweet" :=
  c4_retry_exhaustion_contained (fun _ => false) 5000 3 (fun _ => rfl)

/-- C5 counterexample: the auto-mode scheduler does not guarantee
non-overlapping cycles.  After entering auto mode, two timer fires with no
completion in between leave two cycle bodies in flight — `startAutoMode`
installs a bare `setInterval` with no in-flight guard, so the second tick
is not skipped. -/
theorem c5_counterexample : ¬ specNonOverlap := fun h =>
  absurd (h [.modeChanged "auto", .timerFire, .timerFire]) (by decide)

/-- C5 amended: a timer tick that fires while the interval is active and a
previous cycle is still in flight is not a no-op — it unconditionally
starts another cycle body, so two cycles are then in flight at once and
ticks are never skipped or queued. -/
theorem c5_tick_always_starts_cycle (s : AutoState)
    (hact : s.intervalActive = true) (hin : 0 < s.inFlight) :
    (autoStep .timerFire s).inFlight = s.inFlight + 1 ∧
    2 ≤ (autoStep .timerFire s).inFlight := by
  have h1 : (autoStep .timerFire s).inFlight = s.inFlight + 1 := by
    simp [autoStep, hact]
  exact ⟨h1, by omega⟩

/-- Witness for C5 amended: with the interval active and one cycle in
flight, a tick leaves two cycles in flight. -/
theorem c5_tick_always_starts_cycle_witness :
    (autoStep .timerFire
      { intervalActive := true, inFlight := 1, history := [] }).inFlight
      = 1 + 1 ∧
    2 ≤ (autoStep .timerFire
      { intervalActive := true, inFlight := 1, history := [] }).inFlight :=
  c5_tick_always_starts_cycle
    { intervalActive := true, inFlight := 1, history := [] }
    rfl (by decide)

/-- C6 counterexample: a cycle that starts under auto mode and completes
after the mode has changed away from auto still records its result — at
the moment of the transition the history is empty, yet the completion of
the in-flight cycle afterwards appends its two messages.  The source has
no epoch counter; `recordMessage` runs unguarded. -/
theorem c6_counterexample :
    (autoRun [.modeChanged "auto", .timerFire, .modeChanged "chat"]
      autoInit).history = [] ∧
    (autoRun [.modeChanged "auto", .timerFire, .modeChanged "chat",
      .cycleFinish "BUY" true] autoInit).history =
      ["Executed action: BUY", "Result: executed"] ∧
    (autoRun [.modeChanged "auto", .timerFire, .modeChanged "chat",
      .cycleFinish "BUY" true] autoInit).history ≠ [] := by
  refine ⟨rfl, rfl, ?_⟩
  intro h
  exact List.noConfusion h

/-- C6 amended: a mode transition away from auto only clears the interval
timer; it does not suppress in-flight cycles.  A cycle still pending at
the transition completes afterwards and appends its result messages to the
history — there is no epoch check.  (A full `stop()` instead terminates
the whole process via `process.exit(0)`.) -/
theorem c6_no_epoch_suppression (s : AutoState) (m a : String)
    (hm : m ≠ "auto") (hin : 0 < s.inFlight) :
    (autoRun [.modeChanged m, .cycleFinish a true] s).intervalActive =
      false ∧
    (autoRun [.modeChanged m, .cycleFinish a true] s).history =
      s.history ++ ["Executed action: " ++ a, "Result: executed"] := by
  have hne : ¬ s.inFlight = 0 := by omega
  simp [autoRun, autoStep, hm, hne]

/-- Witness for C6 amended: one cycle in flight, transition to chat mode,
then completion — the two messages are recorded anyway. -/
theorem c6_no_epoch_suppression_witness :
    (autoRun [.modeChanged "chat", .cycleFinish "BUY" true]
      { intervalActive := true, inFlight := 1, history := [] }
      ).intervalActive = false ∧
    (autoRun [.modeChanged "chat", .cycleFinish "BUY" true]
      { intervalActive := true, inFlight := 1, history := [] }).history =
      [] ++ ["Executed action: " ++ "BUY", "Result: executed"] :=
  c6_no_epoch_suppression
    { intervalActive := true, inFlight := 1, history := [] }
    "chat" "BUY" (by decide) (by decide)

/-- C7 counterexample: with a previously cached snapshot that has expired
(stored at time 0 with the 300 s TTL, read at time 400, well inside a
2-times-TTL staleness ceiling) and a failing live fetch, `getMarketData`
propagates the fetch error instead of returning the stale snapshot tagged
as degraded — the `catch` at src/src/index.ts line 1843 rethrows. -/
theorem c7_counterexample :
    (getMarketData
      (some { value := { price := 1, volume24h := 2, priceChange24h := 3,
                         marketCap := 4 },
              expiresAt := 300 })
      400 (.error "network")).result = .error "network" ∧
    400 ≤ 2 * CACHE_TTL ∧
    ¬ ∃ v, (getMarketData
      (some { value := { price := 1, volume24h := 2, priceChange24h := 3,
                         marketCap := 4 },
              expiresAt := 300 })
      400 (.error "network")).result = .ok v := by
  refine ⟨rfl, by decide, ?_⟩
  rintro ⟨v, hv⟩
  rw [show (getMarketData
      (some { value := { price := 1, volume24h := 2, priceChange24h := 3,
                         marketCap := 4 },
              expiresAt := 300 })
      400 (.error "network")).result = .error "network" from rfl] at hv
  exact Except.noConfusion hv

/-- C7 amended: whenever the cache misses (including the case of an entry
past its expiry) and the live fetch fails, `getMarketData` rethrows the
fetch error and leaves the cache untouched; no degraded stale snapshot is
ever returned and no staleness ceiling exists in the source. -/
theorem c7_fetch_error_propagates (entry : Option CacheEntry) (now : Nat)
    (e : String) (hmiss : redisGet entry now = none) :
    (getMarketData entry now (.error e)).result = .error e ∧
    (getMarketData entry now (.error e)).entryAfter = entry := by
  unfold getMarketData
  rw [hmiss]
  exact ⟨rfl, rfl⟩

/-- Witness for C7 amended: an expired entry misses, and the fetch error
comes straight back. -/
theorem c7_fetch_error_propagates_witness :
    (getMarketData
      (some { value := { price := 1, volume24h := 2, priceChange24h := 3,
                         marketCap := 4 },
              expiresAt := 300 })
      400 (.error "down")).result = .error "down" :=
  (c7_fetch_error_propagates
    (some { value := { price := 1, volume24h := 2, priceChange24h := 3,
                       marketCap := 4 },
            expiresAt := 300 })
    400 "down" rfl).1

/-- C8: `getMarketData` is read/write-through over the Redis key for the
symbol — on a hit it returns the deserialized cached value without
contacting the upstream fetch and leaves the cache unchanged; on a miss it
fetches, stores the merged record with the fixed `CACHE_TTL = 300` seconds
and returns it. -/
theorem c8_cache_read_write_through (entry : Option CacheEntry) (now : Nat)
    (fetch : Except String TokenData) :
    CACHE_TTL = 300 ∧
    (∀ v, redisGet entry now = some v →
      (getMarketData entry now fetch).result = .ok v ∧
      (getMarketData entry now fetch).fetched = false ∧
      (getMarketData entry now fetch).entryAfter = entry) ∧
    (∀ td, redisGet entry now = none → fetch = .ok td →
      (getMarketData entry now fetch).result = .ok (mergeMarketData td) ∧
      (getMarketData entry now fetch).fetched = true ∧
      (getMarketData entry now fetch).entryAfter =
        some { value := mergeMarketData td,
               expiresAt := now + CACHE_TTL }) := by
  refine ⟨rfl, ?_, ?_⟩
  · intro v hv
    unfold getMarketData
    rw [hv]
    exact ⟨rfl, rfl, rfl⟩
  · intro td hmiss hok
    unfold getMarketData
    rw [hmiss, hok]
    exact ⟨rfl, rfl, rfl⟩

/-- Witness for C8: a fresh entry read before expiry hits without
fetching, and a miss with a successful fetch stores the merged record with
expiry now + 300. -/
theorem c8_cache_read_write_through_witness :
    ((getMarketData
      (some { value := { price := 1, volume24h := 2, priceChange24h := 3,
                         marketCap := 4 },
              expiresAt := 300 })
      100 (.error "unused")).result =
      .ok { price := 1, volume24h := 2, priceChange24h := 3,
            marketCap := 4 } ∧
     (getMarketData
      (some { value := { price := 1, volume24h := 2, priceChange24h := 3,
                         marketCap := 4 },
              expiresAt := 300 })
      100 (.error "unused")).fetched = false) ∧
    (getMarketData none 100
      (.ok { price := 5, volume_24h_usd := 6,
             price_change_24h_percent := 7,
             pairsMarketCap := none })).entryAfter =
      some { value := mergeMarketData
               { price := 5, volume_24h_usd := 6,
                 price_change_24h_percent := 7, pairsMarketCap := none },
             expiresAt := 100 + CACHE_TTL } := by
  have h1 := (c8_cache_read_write_through
    (some { value := { price := 1, volume24h := 2, priceChange24h := 3,
                       marketCap := 4 },
            expiresAt := 300 })
    100 (.error "unused")).2.1
    { price := 1, volume24h := 2, priceChange24h := 3, marketCap := 4 } rfl
  have h2 := (c8_cache_read_write_through none 100
    (.ok { price := 5, volume_24h_usd := 6,
           price_change_24h_percent := 7, pairsMarketCap := none })).2.2
    { price := 5, volume_24h_usd := 6,
      price_change_24h_percent := 7, pairsMarketCap := none } rfl rfl
  exact ⟨⟨h1.1, h1.2.1⟩, h2.2.2⟩

/-- C10: whenever the market-data fetch or the AI analysis raises,
`analyzeMarket` returns the fallback analysis — `shouldTrade` false,
confidence 0, action HOLD, risk MEDIUM, all-zero metrics — and never
propagates the exception (the embedding is a total function into
`MarketAnalysis`); consequently the monitoring trade gate always holds on
such an analysis. -/
theorem c10_analysis_failure_fallback (cfg : TradingConfig) (tok : String)
    (fetch : Except String (Option MarketDataFull))
    (ai : Except String AIAnalysisRaw)
    (h : (∃ e, fetch = .error e) ∨
      (∃ md e, fetch = .ok md ∧ ai = .error e)) :
    analyzeMarket fetch ai = fallbackAnalysis ∧
    (analyzeMarket fetch ai).shouldTrade = false ∧
    (analyzeMarket fetch ai).confidence = 0 ∧
    (analyzeMarket fetch ai).action = "HOLD" ∧
    (analyzeMarket fetch ai).riskLevel = "MEDIUM" ∧
    (analyzeMarket fetch ai).metrics =
      { price := 0, volume24h := 0, marketCap := 0, confidence := 0,
        volatility := 0, momentum := 0, strength := 0 } ∧
    monitorMarket cfg tok (analyzeMarket fetch ai) = .hold := by
  have hfb : analyzeMarket fetch ai = fallbackAnalysis := by
    rcases h with ⟨e, rfl⟩ | ⟨md, e, rfl, rfl⟩
    · rfl
    · cases md with
      | none => rfl
      | some m => rfl
  rw [hfb]
  refine ⟨rfl, rfl, rfl, rfl, rfl, rfl, ?_⟩
  simp [monitorMarket, fallbackAnalysis]

/-- Witness for C10: a failing fetch yields the fallback analysis and the
gate holds. -/
theorem c10_analysis_failure_fallback_witness :
    analyzeMarket (.error "network")
      (.ok { summary := none, sentiment := none, keyPoints := none,
             recommendation := none, shouldTrade := none,
             confidence := none, action := none, reasons := none,
             riskLevel := none }) = fallbackAnalysis ∧
    monitorMarket { MIN_CONFIDENCE := 7/10, BASE_AMOUNT := 10,
                    SLIPPAGE := 1 } "TOKEN"
      (analyzeMarket (.error "network")
        (.ok { summary := none, sentiment := none, keyPoints := none,
               recommendation := none, shouldTrade := none,
               confidence := none, action := none, reasons := none,
               riskLevel := none })) = .hold := by
  have h := c10_analysis_failure_fallback
    { MIN_CONFIDENCE := 7/10, BASE_AMOUNT := 10, SLIPPAGE := 1 } "TOKEN"
    (.error "network")
    (.ok { summary := none, sentiment := none, keyPoints := none,
           recommendation := none, shouldTrade := none,
           confidence := none, action := none, reasons := none,
           riskLevel := none })
    (Or.inl ⟨"network", rfl⟩)
  exact ⟨h.1, h.2.2.2.2.2.2⟩

end MemecoinAgent
